import Mathlib

/-!
Verification development for the midas-sheet Telegram finance bot.

The definitions below are a shallow embedding of the Python source:
`src/auth/oauth.py` (OAuthManager), `src/bot/handlers.py` (conversation
handlers), `src/bot/auth_handlers.py` (`_set_active_sheet`, logout) and the
`user_sheets` table of `src/db/database.py`.  External effects (the Google
token endpoint, the revocation endpoint, Fernet decryption, the Sheets
append call, wall-clock time) are passed in explicitly as outcome
parameters; database sessions are modelled as association lists threaded
through each operation, with transactional rollback made explicit.
-/

namespace Midas

/-! ### Association-list store primitives

The `auth_tokens` table and the in-memory `_pending_states` dict are both
keyed string maps; we model them as association lists. -/

/-- Lookup of the first binding of key `k`. -/
def dbGet {α : Type} (db : List (String × α)) (k : String) : Option α :=
  (db.find? (fun p => p.1 == k)).map (fun p => p.2)

/-- Removal of every binding of key `k` (a dict holds at most one). -/
def dbDelete {α : Type} (db : List (String × α)) (k : String) :
    List (String × α) :=
  db.filter (fun p => !(p.1 == k))

/-- Dict assignment: replace the binding of `k` in place, or append it. -/
def dbSet {α : Type} (db : List (String × α)) (k : String) (v : α) :
    List (String × α) :=
  match db with
  | [] => [(k, v)]
  | p :: rest => if p.1 == k then (k, v) :: rest else p :: dbSet rest k v

theorem dbGet_nil {α : Type} (k : String) : dbGet ([] : List (String × α)) k = none := rfl

theorem dbGet_cons {α : Type} (p : String × α) (rest : List (String × α)) (k : String) :
    dbGet (p :: rest) k = if p.1 == k then some p.2 else dbGet rest k := by
  by_cases h : (p.1 == k) = true
  · simp [dbGet, List.find?_cons_of_pos, h]
  · simp only [Bool.not_eq_true] at h
    simp [dbGet, List.find?_cons_of_neg, h]

theorem dbGet_dbDelete_self {α : Type} (db : List (String × α)) (k : String) :
    dbGet (dbDelete db k) k = none := by
  induction db with
  | nil => rfl
  | cons p rest ih =>
    cases hb : (p.1 == k) with
    | false => simpa [dbDelete, List.filter_cons, hb, dbGet_cons] using ih
    | true => simpa [dbDelete, List.filter_cons, hb] using ih

theorem dbDelete_idem {α : Type} (db : List (String × α)) (k : String) :
    dbDelete (dbDelete db k) k = dbDelete db k := by
  simp [dbDelete, List.filter_filter]

theorem dbGet_dbSet_self {α : Type} (db : List (String × α)) (k : String) (v : α) :
    dbGet (dbSet db k v) k = some v := by
  induction db with
  | nil => simp [dbSet, dbGet_cons]
  | cons p rest ih =>
    cases hb : (p.1 == k) with
    | false => simpa [dbSet, hb, dbGet_cons] using ih
    | true => simp [dbSet, hb, dbGet_cons]

/-! ### Token data and the encrypted credential store -/

/-- The token dictionary persisted by `OAuthManager.save_token`.  String
fields that Python may set to `None` are `Option String`. -/
structure TokenData where
  token : Option String
  refresh_token : Option String
  token_uri : Option String
  client_id : Option String
  scopes : List String
  expiry : Option String
deriving DecidableEq, Repr

/-- Python truthiness of an optional string: `None` and `""` are falsy. -/
def pyTruthy : Option String → Bool
  | none => false
  | some s => !s.isEmpty

/-- What the stored encrypted blob yields when `load_token` processes it:
`fernet.decrypt` may raise `InvalidToken`, `json.loads` may raise
`JSONDecodeError`, otherwise a token dictionary comes back. -/
inductive StoredBlob where
  | decryptFail
  | jsonFail
  | good (data : TokenData)
deriving DecidableEq, Repr

/-- The `auth_tokens` table: user id to encrypted blob. -/
abbrev AuthDB : Type := List (String × StoredBlob)

/-- Model of `OAuthManager._delete_invalid_token_entry`. -/
def delete_invalid_token_entry (db : AuthDB) (uid : String) : AuthDB :=
  dbDelete db uid

/-- Model of `OAuthManager.load_token`: returns the decrypted token data
(or none) together with the table after any self-healing deletion.  A
decryption failure deletes the row via `_delete_invalid_token_entry`; a
JSON parse failure only returns none. -/
def load_token (db : AuthDB) (uid : String) : Option TokenData × AuthDB :=
  match dbGet db uid with
  | none => (none, db)
  | some .decryptFail => (none, delete_invalid_token_entry db uid)
  | some .jsonFail => (none, db)
  | some (.good d) => (some d, db)

/-- Model of `OAuthManager.save_token`: aborts (returning, not raising)
when the token data has no truthy refresh token, otherwise upserts the
encrypted blob for the user. -/
def save_token (db : AuthDB) (uid : String) (d : TokenData) : AuthDB :=
  if pyTruthy d.refresh_token then dbSet db uid (.good d) else db

/-! ### Revocation -/

/-- Outcome of the HTTP POST to the revocation endpoint: a response with a
status code, or a `requests` exception. -/
inductive NetOutcome where
  | ok (status : Nat)
  | exn
deriving DecidableEq, Repr

/-- The `revocation_success` flag computed in `revoke_token`:
`raise_for_status` turns any 4xx/5xx into the exception path, status 200
sets the flag, other codes set it to `200 <= code < 300`. -/
def netSuccess : NetOutcome → Bool
  | .ok c => decide (200 ≤ c) && decide (c < 300)
  | .exn => false

/-- Model of `OAuthManager.revoke_token`.  `token_to_revoke` is the
optional override argument; when falsy the stored token is loaded to get
the refresh token.  `net` is the outcome of the revocation POST (made only
when a truthy token is at hand); `dbOk` says whether the local DELETE
commits (on failure the transaction rolls back).  Returns the boolean
result and the table afterwards. -/
def revoke_token (db : AuthDB) (uid : String) (token_to_revoke : Option String)
    (net : NetOutcome) (dbOk : Bool) : Bool × AuthDB :=
  let loaded := if pyTruthy token_to_revoke then (none, db) else load_token db uid
  let token_data := loaded.1
  let db1 := loaded.2
  let token : Option String :=
    if pyTruthy token_to_revoke then token_to_revoke
    else match token_data with
      | some d => d.refresh_token
      | none => none
  let revocation_success := if pyTruthy token then netSuccess net else false
  if dbOk then
    let rowExisted := (dbGet db1 uid).isSome
    let deleted_local := if rowExisted then true else revocation_success
    (revocation_success || deleted_local, dbDelete db1 uid)
  else
    (revocation_success || false, db1)

/-! ### Credential loading and refresh -/

/-- What `credentials.refresh(request)` does: succeed with updated token
data, raise `google.auth.exceptions.RefreshError` (the provider rejected
the refresh), or raise any other exception (transient/network failure). -/
inductive RefreshOutcome where
  | ok (newData : TokenData)
  | rejected
  | transient
deriving DecidableEq, Repr

/-- The external world seen by one `get_credentials` call. -/
structure RefreshEnv where
  /-- Value of `credentials.expired` for the loaded credential. -/
  expired : Bool
  /-- Behaviour of `credentials.refresh` if it is attempted. -/
  outcome : RefreshOutcome
  /-- Outcome of the revocation POST made by `revoke_token` if reached. -/
  revokeNet : NetOutcome
  /-- Whether the local DELETE inside `revoke_token` commits. -/
  revokeDbOk : Bool
deriving DecidableEq, Repr

/-- Value of `credentials.valid` for a non-refreshed credential: a token
is set and it is not expired. -/
def credentials_valid (token : Option String) (expired : Bool) : Bool :=
  pyTruthy token && !expired

/-- Model of `OAuthManager.get_credentials`.  Loads and decrypts the
stored token; when expired with a truthy refresh token it refreshes: on
success the updated data is saved and returned (a freshly refreshed
credential has a fresh access token and future expiry, hence is valid);
on `RefreshError` the credential is revoked via `revoke_token` and none
is returned; on any other exception none is returned with the store
untouched.  The model assumes the client-secrets configuration is valid,
as checked by the manager's constructor. -/
def get_credentials (db : AuthDB) (uid : String) (env : RefreshEnv) :
    Option TokenData × AuthDB :=
  match load_token db uid with
  | (none, db1) => (none, db1)
  | (some td, db1) =>
    if env.expired && pyTruthy td.refresh_token then
      match env.outcome with
      | .ok newData => (some newData, save_token db1 uid newData)
      | .rejected =>
          (none, (revoke_token db1 uid td.refresh_token env.revokeNet env.revokeDbOk).2)
      | .transient => (none, db1)
    else
      if credentials_valid td.token env.expired then (some td, db1) else (none, db1)

/-- Model of `OAuthManager.is_authenticated`: `get_credentials` already
returns only valid credentials, so the extra `.valid` check reduces to
presence. -/
def is_authenticated (db : AuthDB) (uid : String) (env : RefreshEnv) : Bool :=
  (get_credentials db uid env).1.isSome

/-! ### Authorization state and code exchange -/

/-- The in-memory `_pending_states` dict: state token to user id. -/
abbrev PendingStates : Type := List (String × String)

/-- Model of `OAuthManager.generate_auth_url`'s state bookkeeping: the
freshly generated random `state` is recorded against the user. -/
def generate_auth_url (states : PendingStates) (uid : String) (state : String) :
    PendingStates :=
  dbSet states state uid

/-- Outcome of `flow.fetch_token` at the provider. -/
inductive FetchOutcome where
  | success (creds : TokenData)
  | failure
deriving DecidableEq, Repr

/-- Errors raised by `exchange_code`: the `ValueError` for a bad state,
or a propagated token-exchange/DB error. -/
inductive ExchangeErr where
  | invalidState
  | fetchFailed
deriving DecidableEq, Repr

/-- Full result of one `exchange_code` call. -/
structure ExchangeResult where
  result : Except ExchangeErr String
  states : PendingStates
  tokens : AuthDB
  users : List String
deriving Repr

/-- Model of `OAuthManager._upsert_user`: ensure the user row exists. -/
def upsert_user (users : List String) (uid : String) : List String :=
  if users.contains uid then users else users ++ [uid]

/-- Model of `OAuthManager.exchange_code`.  The state is popped from
`_pending_states` before anything else; a missing or falsy user id raises
the invalid-state error.  On fetch failure the DB transaction rolls back
and the error propagates; on success the user is upserted and the token
saved (subject to `save_token`'s refresh-token check) in one committed
transaction. -/
def exchange_code (states : PendingStates) (tokens : AuthDB) (users : List String)
    (state : String) (fetch : FetchOutcome) : ExchangeResult :=
  let user_id := dbGet states state
  let states1 := dbDelete states state
  match user_id with
  | none => ⟨.error .invalidState, states1, tokens, users⟩
  | some uid =>
    if uid.isEmpty then ⟨.error .invalidState, states1, tokens, users⟩
    else match fetch with
      | .failure => ⟨.error .fetchFailed, states1, tokens, users⟩
      | .success creds =>
          ⟨.ok uid, states1, save_token tokens uid creds, upsert_user users uid⟩

/-! ### Conversation state machine (`src/bot/handlers.py`)

Per-user transient state lives in `context.user_data` under the keys
`"pending_transaction"` and `"state"`; presence of the keys is modelled
with `Option`. -/

/-- Values taken by `context.user_data["state"]`. -/
inductive ConvState where
  | waiting_amount
  | confirm_comment
  | waiting_comment
  | waiting_category_file
deriving DecidableEq, Repr

/-- Value of a Python float as far as this flow inspects it: NaN, a
signed infinity, or a finite value.  Finite values are kept as exact
rationals: decimal-to-binary64 rounding is monotone and preserves sign
and zero, which is all the handler's `amount <= 0` check looks at, and
the inputs the theorems evaluate are far from the overflow/underflow
range of binary64. -/
inductive PyFloat where
  | nan
  | inf (neg : Bool)
  | fin (q : ℚ)
deriving DecidableEq, Repr

/-- The Python comparison `amount <= 0` (float against the int 0): NaN
compares false against everything, negative infinity is below zero,
positive infinity is not, and finite values compare as rationals. -/
def pyFloatLe0 : PyFloat → Bool
  | .nan => false
  | .inf neg => neg
  | .fin q => decide (q ≤ 0)

/-- The `pending_transaction` dictionary. -/
structure PendingTransaction where
  expense_type : String
  category : String
  subcategory : String
  date : String
  amount : Option PyFloat
  comment : String
deriving DecidableEq, Repr

/-- The per-user slice of `context.user_data` used by the flow. -/
structure UserData where
  pending_transaction : Option PendingTransaction
  state : Option ConvState
deriving DecidableEq, Repr

/-- A cell of the row passed to `append_row`: the Python list mixes
strings, the float amount, and possibly `None`. -/
inductive Cell where
  | str (s : String)
  | num (v : PyFloat)
  | null
deriving DecidableEq, Repr

/-- Cell holding `transaction["amount"]`. -/
def cellOfAmount : Option PyFloat → Cell
  | some v => .num v
  | none => .null

/-- Outcome of `sheets_ops.append_row`, one case per handler clause in
`register_transaction`. -/
inductive AppendResult where
  | ok
  | missingHeaders
  | worksheetNotFound
  | apiError
  | runtimeError
  | valueError
  | otherError
deriving DecidableEq, Repr

/-- The kinds of reply the handlers send back to the chat. -/
inductive Msg where
  | authPrompt
  | typeSelector
  | categoryKeyboard (expense_type : String)
  | subcategoryKeyboard (category : String)
  | askAmount
  | askCommentDecision
  | askComment
  | confirmSuccess
  | appendErrorMsg (r : AppendResult)
  | invalidAmountPrompt
  | nonPositiveAmountPrompt
  | expiredTransaction
  | categoriesAdmin
  | unknownAction
  | ignored
  | pyError
deriving DecidableEq, Repr

/-- Reply produced by `register_transaction` for an append outcome. -/
def msgOfAppend : AppendResult → Msg
  | .ok => .confirmSuccess
  | e => .appendErrorMsg e

/-- Model of `register_transaction`: builds the row for the `gastos` or
`ingresos` worksheet, attempts exactly one append, and replies.  For any
other `expense_type`, `sheet_name` is unbound in the source, so the
`NameError` at the append call lands in the generic handler without any
append attempt.  When the append succeeds but `amount` is `None`, the
`:.2f` format of the confirmation raises after the row was written, so
the generic error reply is sent.  The function never raises to its
caller. -/
def register_transaction (username nowTs : String) (append : AppendResult)
    (expense_type : String) (amount : Option PyFloat)
    (category subcategory date comment : String) :
    Option (String × List Cell) × Msg :=
  if expense_type == "gasto" then
    let row : List Cell :=
      [.str date, .str username, .str category, .str subcategory,
       cellOfAmount amount, .str nowTs, .str comment]
    (some ("gastos", row),
     if append == .ok then
       (if amount.isSome then .confirmSuccess else .appendErrorMsg .otherError)
     else msgOfAppend append)
  else if expense_type == "ingreso" then
    let row : List Cell :=
      [.str date, .str username, .str category,
       cellOfAmount amount, .str nowTs, .str comment]
    (some ("ingresos", row),
     if append == .ok then
       (if amount.isSome then .confirmSuccess else .appendErrorMsg .otherError)
     else msgOfAppend append)
  else (none, .pyError)

/-! ### Python string primitives used by the handlers -/

/-- Whitespace stripped by Python `str.strip()` (and by `float()` around
its argument): the ASCII whitespace controls including vertical tab and
form feed, the file/group/record/unit separators, NEL, and the Unicode
space-separator, line-separator and paragraph-separator characters. -/
def isPySpace (c : Char) : Bool :=
  c == ' ' || c == '\t' || c == '\n' || c == '\r' ||
  c == '\u000B' || c == '\u000C' ||
  c == '\u001C' || c == '\u001D' || c == '\u001E' || c == '\u001F' ||
  c == '\u0085' || c == '\u00A0' || c == '\u1680' ||
  ('\u2000' ≤ c && c ≤ '\u200A') ||
  c == '\u2028' || c == '\u2029' || c == '\u202F' || c == '\u205F' || c == '\u3000'

/-- Model of Python `str.strip()`. -/
def pyStrip (s : String) : String :=
  String.mk (((s.toList.dropWhile isPySpace).reverse.dropWhile isPySpace).reverse)

/-- Model of Python `str.lower()` on the ASCII inputs involved. -/
def pyLower (s : String) : String :=
  String.mk (s.toList.map Char.toLower)

/-- Split a character list at every occurrence of `sep`, keeping empty
segments, as Python `str.split(sep)` does. -/
def splitChar (sep : Char) : List Char → List (List Char)
  | [] => [[]]
  | c :: cs =>
    let r := splitChar sep cs
    if c = sep then [] :: r
    else match r with
      | [] => [[c]]
      | h :: t => (c :: h) :: t

/-- Model of `query.data.split("|")`. -/
def pySplitOnBar (s : String) : List String :=
  (splitChar '|' s.toList).map (fun cs => String.mk cs)

/-- Model of `add_command` (the `/agregar` entry event): if the user is
not authenticated, an authorization prompt is sent and nothing else
happens; otherwise the type-selector keyboard is shown.  No
PendingTransaction is created here. -/
def add_command (authOk : Bool) (ud : UserData) : UserData × Msg :=
  if !authOk then (ud, .authPrompt) else (ud, .typeSelector)

/-- Result of running one handler: updated user data, reply, and the row
append it attempted, if any. -/
structure HandlerOut where
  ud : UserData
  msg : Msg
  append : Option (String × List Cell)
deriving DecidableEq, Repr

/-- Model of `button_callback` after `query.data.split("|")`.  The check
of `is_authenticated` at the top of the Python function is a literal
`pass`; only the `selector` branch re-checks it.  Missing list elements
(`data[i]` out of range) raise `IndexError` into the global error
handler, modelled as `.pyError`.  `today` and `nowTs` stand for
`datetime.now()` renderings, `username` for the sender, and `append` for
the outcome of the Sheets append if one is made. -/
def handle_callback (authOk : Bool) (ud : UserData) (parts : List String)
    (today nowTs username : String) (append : AppendResult) : HandlerOut :=
  match parts with
  | [] => ⟨ud, .pyError, none⟩
  | action :: rest =>
    if action == "selector" then
      if !authOk then ⟨ud, .authPrompt, none⟩
      else match rest with
        | expense_type :: _ => ⟨ud, .categoryKeyboard expense_type, none⟩
        | [] => ⟨ud, .pyError, none⟩
    else if action == "category" then
      match rest with
      | expense_type :: category :: _ =>
        if expense_type == "gasto" then
          ⟨ud, .subcategoryKeyboard category, none⟩
        else
          ⟨{ pending_transaction :=
               some ⟨expense_type, category, category, today, none, ""⟩,
             state := some .waiting_amount }, .askAmount, none⟩
      | _ => ⟨ud, .pyError, none⟩
    else if action == "back" then
      match rest with
      | expense_type :: _ => ⟨ud, .categoryKeyboard expense_type, none⟩
      | [] => ⟨ud, .pyError, none⟩
    else if action == "subcategory" then
      match rest with
      | expense_type :: category :: subcategory :: _ =>
        ⟨{ pending_transaction :=
             some ⟨expense_type, category, subcategory, today, none, ""⟩,
           state := some .waiting_amount }, .askAmount, none⟩
      | _ => ⟨ud, .pyError, none⟩
    else if action == "back_to_selector" then ⟨ud, .typeSelector, none⟩
    else if action == "comment" then
      match rest with
      | option :: _ =>
        match ud.pending_transaction with
        | none => ⟨ud, .expiredTransaction, none⟩
        | some tx =>
          if option == "yes" then
            ⟨{ ud with state := some .waiting_comment },
             if tx.amount.isSome then .askComment else .pyError, none⟩
          else
            let reg := register_transaction username nowTs append
              tx.expense_type tx.amount tx.category tx.subcategory tx.date ""
            ⟨⟨none, none⟩, reg.2, reg.1⟩
      | [] => ⟨ud, .pyError, none⟩
    else if action == "reset_categories" then
      match rest with
      | _ :: _ => ⟨ud, .categoriesAdmin, none⟩
      | [] => ⟨ud, .pyError, none⟩
    else if action == "edit_categories" then
      match rest with
      | option :: _ =>
        if option == "import" then
          ⟨{ ud with state := some .waiting_category_file }, .categoriesAdmin, none⟩
        else if option == "export" || option == "expense" || option == "income" then
          ⟨ud, .categoriesAdmin, none⟩
        else ⟨ud, .unknownAction, none⟩
      | [] => ⟨ud, .pyError, none⟩
    else ⟨ud, .unknownAction, none⟩

/-- Model of `button_callback` on the raw callback-data string. -/
def button_callback (authOk : Bool) (ud : UserData) (data : String)
    (today nowTs username : String) (append : AppendResult) : HandlerOut :=
  handle_callback authOk ud (pySplitOnBar data) today nowTs username append

/-! ### Amount parsing -/

/-- Numeric value of a decimal digit. -/
def digitVal (c : Char) : Nat := c.toNat - '0'.toNat

/-- Base-10 value of a digit list. -/
def natOfDigits (cs : List Char) : Nat :=
  cs.foldl (fun a c => 10 * a + digitVal c) 0

/-- Split a character list at the first dot. -/
def splitAtDot : List Char → List Char × Option (List Char)
  | [] => ([], none)
  | c :: cs =>
    if c = '.' then ([], some cs)
    else
      let r := splitAtDot cs
      (c :: r.1, r.2)

/-- Split a character list at the first `e` or `E` (the exponent marker
of a Python float literal). -/
def splitAtExpChar : List Char → List Char × Option (List Char)
  | [] => ([], none)
  | c :: cs =>
    if c = 'e' || c = 'E' then ([], some cs)
    else
      let r := splitAtExpChar cs
      (c :: r.1, r.2)

/-- Case-insensitive comparison against a lowercase pattern, for the
`inf`, `infinity` and `nan` spellings `float()` accepts. -/
def matchLowerEq (cs pat : List Char) : Bool :=
  cs.map Char.toLower == pat

/-- Scan for PEP 515 underscore placement from a previous character:
every underscore must sit between two digits. -/
def underscoresOkFrom (prev : Char) : List Char → Bool
  | [] => true
  | ['_'] => false
  | '_' :: next :: rest =>
    if prev.isDigit && next.isDigit then underscoresOkFrom next rest else false
  | c :: rest => underscoresOkFrom c rest

/-- PEP 515 underscore placement for a whole token: every underscore has
a digit immediately before and after it. -/
def underscoresOk : List Char → Bool
  | [] => true
  | '_' :: _ => false
  | c :: rest => underscoresOkFrom c rest

/-- Signed exponent of a float literal: optional sign and digits. -/
def parseExp (cs : List Char) : Option Int :=
  let signed : Bool × List Char :=
    match cs with
    | '-' :: t => (true, t)
    | '+' :: t => (false, t)
    | _ => (false, cs)
  if signed.2.all Char.isDigit && !signed.2.isEmpty then
    some (if signed.1 then -(natOfDigits signed.2 : Int) else (natOfDigits signed.2 : Int))
  else none

/-- Token accepted by Python `float()`: NaN, a signed infinity, or a
finite decimal `mantissa * 10 ^ scale`. -/
inductive PyFloatTok where
  | nan
  | inf (neg : Bool)
  | fin (mantissa : Int) (scale : Int)
deriving DecidableEq, Repr

/-- Syntactic part of the Python `float()` model.  After stripping the
surrounding whitespace and an optional sign, it accepts the
case-insensitive special spellings `inf`, `infinity` and `nan`, and
otherwise a decimal literal: digits with an optional fractional part (at
least one digit overall), an optional `e`/`E` exponent with optional
sign, and PEP 515 underscores between digits.  Anything else raises
`ValueError` (`none` here).  CPython additionally maps Unicode decimal
digits to ASCII before parsing; the model covers the ASCII repertoire,
which includes every input the theorems evaluate. -/
def pyFloatTok (s : String) : Option PyFloatTok :=
  let cs := ((s.toList.dropWhile isPySpace).reverse.dropWhile isPySpace).reverse
  let signed : Bool × List Char :=
    match cs with
    | '-' :: t => (true, t)
    | '+' :: t => (false, t)
    | _ => (false, cs)
  let neg := signed.1
  let body := signed.2
  if matchLowerEq body ['i', 'n', 'f'] ||
      matchLowerEq body ['i', 'n', 'f', 'i', 'n', 'i', 't', 'y'] then
    some (.inf neg)
  else if matchLowerEq body ['n', 'a', 'n'] then
    some .nan
  else if underscoresOk body then
    let clean := body.filter (fun c => !(c == '_'))
    let sp := splitAtExpChar clean
    let md := splitAtDot sp.1
    let intPart := md.1
    let fracPart := md.2.getD []
    if intPart.all Char.isDigit && fracPart.all Char.isDigit &&
        (!intPart.isEmpty || !fracPart.isEmpty) then
      let mag : Int := (natOfDigits intPart : Int) * 10 ^ fracPart.length + natOfDigits fracPart
      let m : Int := if neg then -mag else mag
      match sp.2 with
      | none => some (.fin m (-(fracPart.length : Int)))
      | some ecs =>
        match parseExp ecs with
        | none => none
        | some e => some (.fin m (e - (fracPart.length : Int)))
    else none
  else none

/-- Value of a parsed float token. -/
def pyFloatTokVal : PyFloatTok → PyFloat
  | .nan => .nan
  | .inf neg => .inf neg
  | .fin m sc => .fin ((m : ℚ) * (10 : ℚ) ^ sc)

/-- Model of Python `float()`: the value of the parsed literal. -/
def pyFloat (s : String) : Option PyFloat :=
  (pyFloatTok s).map pyFloatTokVal

/-- Model of `amount_handler`: ignores the message unless a pending
transaction exists and the state is `waiting_amount`; re-prompts (without
touching the state) when `float()` raises or when the parsed amount
compares `<= 0`; otherwise stores the amount and moves to
`confirm_comment`.  Note the `<= 0` check is the code's only validation:
NaN compares false and therefore passes it. -/
def amount_handler (ud : UserData) (text : String) : HandlerOut :=
  match ud.pending_transaction, ud.state with
  | some tx, some .waiting_amount =>
    let amount_text := pyStrip text
    match pyFloat amount_text with
    | none => ⟨ud, .invalidAmountPrompt, none⟩
    | some amount =>
      if pyFloatLe0 amount then ⟨ud, .nonPositiveAmountPrompt, none⟩
      else
        ⟨⟨some { tx with amount := some amount }, some .confirm_comment⟩,
         .askCommentDecision, none⟩
  | _, _ => ⟨ud, .ignored, none⟩

/-- Model of `comment_handler`: ignores the message unless a pending
transaction exists and the state is `waiting_comment`; maps the sentinel
"no comment" to the empty comment; registers the transaction and then
deletes both `pending_transaction` and `state` regardless of the append
outcome. -/
def comment_handler (ud : UserData) (text : String) (nowTs username : String)
    (append : AppendResult) : HandlerOut :=
  match ud.pending_transaction, ud.state with
  | some tx, some .waiting_comment =>
    let c0 := pyStrip text
    let comment_text := if pyLower c0 == "no comment" then "" else c0
    let reg := register_transaction username nowTs append
      tx.expense_type tx.amount tx.category tx.subcategory tx.date comment_text
    ⟨⟨none, none⟩, reg.2, reg.1⟩
  | _, _ => ⟨ud, .ignored, none⟩

/-! ### Active sheet selection (`src/bot/auth_handlers.py`, `user_sheets`) -/

/-- A row of the `user_sheets` table.  In the schema `user_id` is the
primary key, so the table can physically hold at most one row per user;
the application logic below does not rely on that and enforces the
single-active invariant itself. -/
structure SheetRow where
  user_id : String
  spreadsheet_id : String
  spreadsheet_title : Option String
  is_active : Bool
deriving DecidableEq, Repr

/-- The `user_sheets` table. -/
abbrev SheetTable : Type := List SheetRow

/-- The bulk UPDATE that deactivates every active row of the user. -/
def deactivate_user_sheets (t : SheetTable) (uid : String) : SheetTable :=
  t.map (fun r =>
    if r.user_id == uid && r.is_active then { r with is_active := false } else r)

/-- ORM-style update of the first row satisfying `p`. -/
def updateFirst (p : SheetRow → Bool) (f : SheetRow → SheetRow) :
    SheetTable → SheetTable
  | [] => []
  | r :: rs => if p r then f r :: rs else r :: updateFirst p f rs

/-- Model of `_set_active_sheet`: one transaction that deactivates the
user's active rows, then either reactivates the existing association for
this spreadsheet (updating the title) or inserts a new active row.
Inserting a second row for a user violates the `user_id` primary key, so
the `IntegrityError` handler rolls the whole transaction back and returns
false. -/
def set_active_sheet (t : SheetTable) (uid sid : String) (title : Option String) :
    Bool × SheetTable :=
  let t1 := deactivate_user_sheets t uid
  match t1.find? (fun r => r.user_id == uid && r.spreadsheet_id == sid) with
  | some _ =>
      (true, updateFirst (fun r => r.user_id == uid && r.spreadsheet_id == sid)
        (fun r => { r with is_active := true, spreadsheet_title := title }) t1)
  | none =>
      if t1.any (fun r => r.user_id == uid) then (false, t)
      else (true, t1 ++ [⟨uid, sid, title, true⟩])

/-- The deactivation UPDATE run by `logout_command`. -/
def logout_deactivate (t : SheetTable) (uid : String) : SheetTable :=
  deactivate_user_sheets t uid

/-- Sequences of operations that touch `user_sheets`. -/
inductive SheetOp where
  | setActive (uid sid : String) (title : Option String)
  | logout (uid : String)
deriving DecidableEq, Repr

/-- Apply one operation to the table. -/
def applySheetOp (t : SheetTable) : SheetOp → SheetTable
  | .setActive uid sid title => (set_active_sheet t uid sid title).2
  | .logout uid => logout_deactivate t uid

/-- Apply a sequence of operations, starting from the given table. -/
def applySheetOps (t : SheetTable) (ops : List SheetOp) : SheetTable :=
  ops.foldl applySheetOp t

/-- Number of active rows the table holds for a user. -/
def activeCount (t : SheetTable) (uid : String) : Nat :=
  t.countP (fun r => r.user_id == uid && r.is_active)

/-! ### Named intermediate values of `revoke_token`, for specification -/

/-- The table after `revoke_token`'s optional `load_token` call. -/
def revokeDb1 (db : AuthDB) (uid : String) (ov : Option String) : AuthDB :=
  if pyTruthy ov then db else (load_token db uid).2

/-- The token `revoke_token` actually sends to the revocation endpoint. -/
def revokeTokenUsed (db : AuthDB) (uid : String) (ov : Option String) :
    Option String :=
  if pyTruthy ov then ov
  else match (load_token db uid).1 with
    | some d => d.refresh_token
    | none => none

/-- Whether the network revocation call is made and succeeds. -/
def netRevocationOk (db : AuthDB) (uid : String) (ov : Option String)
    (net : NetOutcome) : Bool :=
  pyTruthy (revokeTokenUsed db uid ov) && netSuccess net

/-- Whether a local credential row existed for the DELETE to remove. -/
def localRowExists (db : AuthDB) (uid : String) (ov : Option String) : Bool :=
  (dbGet (revokeDb1 db uid ov) uid).isSome

/-! ### Helper lemmas -/

theorem load_token_of_good (db : AuthDB) (uid : String) (td : TokenData)
    (h : dbGet db uid = some (.good td)) : load_token db uid = (some td, db) := by
  simp [load_token, h]

theorem load_token_of_absent (db : AuthDB) (uid : String)
    (h : dbGet db uid = none) : load_token db uid = (none, db) := by
  simp [load_token, h]

theorem get_credentials_of_absent (db : AuthDB) (uid : String) (env : RefreshEnv)
    (h : dbGet db uid = none) : get_credentials db uid env = (none, db) := by
  simp [get_credentials, load_token_of_absent db uid h]

theorem exchange_code_states_eq (states : PendingStates) (tokens : AuthDB)
    (users : List String) (s : String) (f : FetchOutcome) :
    (exchange_code states tokens users s f).states = dbDelete states s := by
  unfold exchange_code
  cases h : dbGet states s with
  | none => simp
  | some uid =>
    by_cases he : uid.isEmpty
    · simp [he]
    · cases f <;> simp [he]

/-- C2: for every authorization state `s`, `exchange_code` removes the
`state -> userId` entry on first lookup regardless of the exchange
outcome; a second call with the same `s` (against any token/user store)
fails with the invalid-state error and leaves the state map unchanged, so
a retry without a fresh `generate_auth_url` also fails. -/
theorem exchange_code_single_use (states : PendingStates) (tokens : AuthDB)
    (users : List String) (s : String) (f1 : FetchOutcome)
    (tokens2 : AuthDB) (users2 : List String) (f2 : FetchOutcome) :
    dbGet (exchange_code states tokens users s f1).states s = none ∧
    (exchange_code (exchange_code states tokens users s f1).states
        tokens2 users2 s f2).result = .error .invalidState ∧
    (exchange_code (exchange_code states tokens users s f1).states
        tokens2 users2 s f2).states = (exchange_code states tokens users s f1).states := by
  have hst := exchange_code_states_eq states tokens users s f1
  have h0 : dbGet (dbDelete states s) s = none := dbGet_dbDelete_self states s
  refine ⟨by rw [hst]; exact h0, ?_, ?_⟩
  · rw [hst]; unfold exchange_code; simp [h0]
  · rw [hst, exchange_code_states_eq, dbDelete_idem]

/-- C1: for a user with a stored credential that is expired with a truthy
refresh token, a refresh rejected by the provider (`RefreshError`) makes
`get_credentials` return none and delete the stored row, so any later
`get_credentials` also returns none; a transient refresh failure makes it
return none with the store unchanged, and a later refresh that succeeds
returns the refreshed credential. -/
theorem get_credentials_refresh_or_delete (db : AuthDB) (uid : String)
    (td : TokenData) (env : RefreshEnv)
    (hdb : dbGet db uid = some (.good td))
    (hexp : env.expired = true)
    (hrt : pyTruthy td.refresh_token = true)
    (hok : env.revokeDbOk = true) :
    (env.outcome = .rejected →
      (get_credentials db uid env).1 = none ∧
      dbGet (get_credentials db uid env).2 uid = none ∧
      ∀ env2 : RefreshEnv,
        (get_credentials (get_credentials db uid env).2 uid env2).1 = none) ∧
    (env.outcome = .transient →
      (get_credentials db uid env).1 = none ∧
      (get_credentials db uid env).2 = db ∧
      ∀ (newData : TokenData) (env2 : RefreshEnv),
        env2.expired = true → env2.outcome = .ok newData →
        (get_credentials db uid env2).1 = some newData) := by
  have hload := load_token_of_good db uid td hdb
  constructor
  · intro hrej
    have hgc : get_credentials db uid env = (none, dbDelete db uid) := by
      simp [get_credentials, hload, hexp, hrt, hrej, revoke_token, hok]
    refine ⟨by rw [hgc], by rw [hgc]; exact dbGet_dbDelete_self db uid, ?_⟩
    intro env2
    rw [hgc]
    rw [get_credentials_of_absent (dbDelete db uid) uid env2 (dbGet_dbDelete_self db uid)]
  · intro htr
    have hgc : get_credentials db uid env = (none, db) := by
      simp [get_credentials, hload, hexp, hrt, htr]
    refine ⟨by rw [hgc], by rw [hgc], ?_⟩
    intro newData env2 he2 ho2
    simp [get_credentials, hload, he2, hrt, ho2]

/-- Sample token data used to witness the credential theorems. -/
def tdSample : TokenData :=
  ⟨some "tok", some "ref", some "uri", some "cid", ["scope"], none⟩

/-- Sample one-user token store. -/
def dbSample : AuthDB := [("u7", .good tdSample)]

/-- Witness for the refresh-or-delete contract at a concrete store:
rejection deletes the row and returns none; a transient failure returns
none and leaves the store intact. -/
theorem get_credentials_refresh_or_delete_witness :
    ((get_credentials dbSample "u7" ⟨true, .rejected, .exn, true⟩).1 = none ∧
     dbGet (get_credentials dbSample "u7" ⟨true, .rejected, .exn, true⟩).2 "u7" = none) ∧
    ((get_credentials dbSample "u7" ⟨true, .transient, .exn, true⟩).1 = none ∧
     (get_credentials dbSample "u7" ⟨true, .transient, .exn, true⟩).2 = dbSample) := by
  have hR := get_credentials_refresh_or_delete dbSample "u7" tdSample
    ⟨true, .rejected, .exn, true⟩ (by decide) rfl (by decide) rfl
  have hT := get_credentials_refresh_or_delete dbSample "u7" tdSample
    ⟨true, .transient, .exn, true⟩ (by decide) rfl (by decide) rfl
  exact ⟨⟨(hR.1 rfl).1, (hR.1 rfl).2.1⟩, ⟨(hT.2 rfl).1, (hT.2 rfl).2.1⟩⟩

/-- C8: `revoke_token` deletes the local credential row whenever the
local DELETE can commit, no matter how the network revocation went, and
its boolean result is true exactly when the network call succeeded or the
local deletion removed a row. -/
theorem revoke_token_contract (db : AuthDB) (uid : String)
    (ov : Option String) (net : NetOutcome) (dbOk : Bool) :
    dbGet (revoke_token db uid ov net true).2 uid = none ∧
    (revoke_token db uid ov net dbOk).1 =
      (netRevocationOk db uid ov net || (dbOk && localRowExists db uid ov)) := by
  constructor
  · by_cases hov : pyTruthy ov = true <;>
      simp [revoke_token, hov, dbGet_dbDelete_self]
  · by_cases hov : pyTruthy ov = true
    · cases dbOk <;>
        simp [revoke_token, hov, netRevocationOk, revokeTokenUsed, revokeDb1,
          localRowExists]
      all_goals
        cases (dbGet db uid).isSome <;>
          cases (if pyTruthy ov then netSuccess net else false) <;> simp [hov]
    · cases dbOk <;>
        cases hl : (load_token db uid).1 with
      | _ =>
        simp [revoke_token, hov, hl, netRevocationOk, revokeTokenUsed, revokeDb1,
          localRowExists]
        try (cases (dbGet (load_token db uid).2 uid).isSome <;> simp)

/-- C9 counterexample: a stored blob that decrypts but holds corrupted
JSON is treated as absent, yet the row is NOT deleted — refuting the
claim that every corrupted or undecryptable blob gets its row deleted. -/
theorem load_token_json_corrupt_keeps_row :
    (load_token [("u", StoredBlob.jsonFail)] "u").1 = none ∧
    dbGet (load_token [("u", StoredBlob.jsonFail)] "u").2 "u" = some .jsonFail := by
  exact ⟨rfl, rfl⟩

/-- C9 amended: an undecryptable blob (`InvalidToken`) is treated as
absent and its row is deleted; a blob that decrypts to corrupted JSON is
treated as absent but its row is left in place. -/
theorem load_token_self_healing (db : AuthDB) (uid : String) :
    (dbGet db uid = some .decryptFail →
      (load_token db uid).1 = none ∧ dbGet (load_token db uid).2 uid = none) ∧
    (dbGet db uid = some .jsonFail →
      (load_token db uid).1 = none ∧ (load_token db uid).2 = db) := by
  constructor
  · intro h
    simp [load_token, h, delete_invalid_token_entry, dbGet_dbDelete_self]
  · intro h
    simp [load_token, h]

/-- Witness for the self-healing contract at concrete one-row stores. -/
theorem load_token_self_healing_witness :
    ((load_token [("u", StoredBlob.decryptFail)] "u").1 = none ∧
     dbGet (load_token [("u", StoredBlob.decryptFail)] "u").2 "u" = none) ∧
    ((load_token [("u", StoredBlob.jsonFail)] "u").1 = none ∧
     (load_token [("u", StoredBlob.jsonFail)] "u").2 = [("u", StoredBlob.jsonFail)]) := by
  refine ⟨(load_token_self_healing [("u", .decryptFail)] "u").1 (by decide),
          (load_token_self_healing [("u", .jsonFail)] "u").2 (by decide)⟩

/-- C10: when the provider returns credentials without a truthy refresh
token, `save_token` aborts silently, yet `exchange_code` still reports
success with the user id; nothing is persisted, so `get_credentials` for
that user still returns none afterwards. -/
theorem exchange_code_without_refresh_token (states : PendingStates)
    (tokens : AuthDB) (users : List String) (s uid : String) (creds : TokenData)
    (hs : dbGet states s = some uid)
    (hne : uid.isEmpty = false)
    (hrt : pyTruthy creds.refresh_token = false)
    (htok : dbGet tokens uid = none) :
    (exchange_code states tokens users s (.success creds)).result = .ok uid ∧
    (exchange_code states tokens users s (.success creds)).tokens = tokens ∧
    ∀ env : RefreshEnv,
      (get_credentials (exchange_code states tokens users s (.success creds)).tokens
        uid env).1 = none := by
  have hres : exchange_code states tokens users s (.success creds) =
      ⟨.ok uid, dbDelete states s, tokens, upsert_user users uid⟩ := by
    simp [exchange_code, hs, hne, save_token, hrt]
  refine ⟨by rw [hres], by rw [hres], ?_⟩
  intro env
  rw [hres]
  rw [get_credentials_of_absent tokens uid env htok]

/-- Witness: concrete exchange with a refresh-token-less provider
response reports success while persisting nothing. -/
theorem exchange_code_without_refresh_token_witness :
    (exchange_code [("st", "u7")] [] [] "st"
        (.success ⟨some "tok", none, none, none, [], none⟩)).result = .ok "u7" ∧
    (exchange_code [("st", "u7")] [] [] "st"
        (.success ⟨some "tok", none, none, none, [], none⟩)).tokens = [] ∧
    (get_credentials (exchange_code [("st", "u7")] [] [] "st"
        (.success ⟨some "tok", none, none, none, [], none⟩)).tokens "u7"
        ⟨false, .transient, .exn, true⟩).1 = none := by
  have h := exchange_code_without_refresh_token [("st", "u7")] [] [] "st" "u7"
    ⟨some "tok", none, none, none, [], none⟩ (by decide) (by decide) (by decide) rfl
  exact ⟨h.1, h.2.1, h.2.2 ⟨false, .transient, .exn, true⟩⟩

/-! ### Conversation state machine theorems -/

/-- C3 counterexample: an unauthenticated user delivering a subcategory
button event gets a PendingTransaction created and no authorization
prompt — the authentication gate is not applied to this transition. -/
theorem unauthenticated_subcategory_creates_pending :
    (button_callback false ⟨none, none⟩ "subcategory|gasto|HOGAR|Luz"
        "2026-10-12" "2026-10-12 10:00:00" "usr" .ok).ud.pending_transaction =
      some ⟨"gasto", "HOGAR", "Luz", "2026-10-12", none, ""⟩ ∧
    (button_callback false ⟨none, none⟩ "subcategory|gasto|HOGAR|Luz"
        "2026-10-12" "2026-10-12 10:00:00" "usr" .ok).msg ≠ .authPrompt := by
  exact ⟨by decide, by decide⟩

/-- C3 amended: only the entry events check authentication — the
`/agregar` command and the `selector` button reply with an authorization
prompt and change nothing when the user is unauthenticated — while the
category and subcategory button transitions never consult the
authentication state, so an unauthenticated subcategory event does create
a PendingTransaction. -/
theorem auth_gate_only_at_entry (ud : UserData) (rest : List String)
    (today nowTs username : String) (append : AppendResult) :
    add_command false ud = (ud, .authPrompt) ∧
    handle_callback false ud ("selector" :: rest) today nowTs username append
      = ⟨ud, .authPrompt, none⟩ ∧
    (∀ t c : String,
      handle_callback false ud ["category", t, c] today nowTs username append
        = handle_callback true ud ["category", t, c] today nowTs username append) ∧
    (∀ t c sc : String,
      handle_callback false ud ["subcategory", t, c, sc] today nowTs username append
        = handle_callback true ud ["subcategory", t, c, sc] today nowTs username append) := by
  refine ⟨rfl, by simp [handle_callback], fun t c => rfl, fun t c sc => rfl⟩

/-- C6: in the guided flow, selecting a category for an income creates
the PendingTransaction with the subcategory equal to the category and
moves straight to the awaiting-amount state, while the expense path only
shows the subcategory keyboard without creating a PendingTransaction. -/
theorem income_category_skips_subcategory (authOk : Bool) (ud : UserData)
    (category today nowTs username : String) (append : AppendResult) :
    handle_callback authOk ud ["category", "ingreso", category]
        today nowTs username append
      = ⟨⟨some ⟨"ingreso", category, category, today, none, ""⟩,
          some .waiting_amount⟩, .askAmount, none⟩ ∧
    handle_callback authOk ud ["category", "gasto", category]
        today nowTs username append
      = ⟨ud, .subcategoryKeyboard category, none⟩ := by
  exact ⟨rfl, rfl⟩

/-- Sample expense transaction awaiting its amount. -/
def txAwaitingAmount : PendingTransaction :=
  ⟨"gasto", "HOGAR", "Luz", "2026-10-12", none, ""⟩

/-- Sample user data in the awaiting-amount state. -/
def udAwaitingAmount : UserData := ⟨some txAwaitingAmount, some .waiting_amount⟩

/-- C7: evaluation of `amount_handler` at the failing input and at the
inputs the spec names.  `float("nan")` parses, `nan <= 0` is false, so
the handler stores amount = NaN and advances to the comment decision —
although "nan" does not parse as a strictly positive number — while
"abc", "-5" and "0" re-prompt leaving the state and amount untouched and
"123.45" advances with amount 123.45 as described. -/
theorem amount_handler_nan_accepted :
    amount_handler udAwaitingAmount "nan"
      = ⟨⟨some { txAwaitingAmount with amount := some .nan },
          some .confirm_comment⟩, .askCommentDecision, none⟩ ∧
    amount_handler udAwaitingAmount "abc"
      = ⟨udAwaitingAmount, .invalidAmountPrompt, none⟩ ∧
    amount_handler udAwaitingAmount "-5"
      = ⟨udAwaitingAmount, .nonPositiveAmountPrompt, none⟩ ∧
    amount_handler udAwaitingAmount "0"
      = ⟨udAwaitingAmount, .nonPositiveAmountPrompt, none⟩ ∧
    amount_handler udAwaitingAmount "123.45"
      = ⟨⟨some { txAwaitingAmount with amount := some (.fin ((12345 : ℚ) / 100)) },
          some .confirm_comment⟩, .askCommentDecision, none⟩ := by
  have hnan : pyFloatTok (pyStrip "nan") = some .nan := by decide
  have habc : pyFloatTok (pyStrip "abc") = none := by decide
  have hm5 : pyFloatTok (pyStrip "-5") = some (.fin (-5) 0) := by decide
  have h0 : pyFloatTok (pyStrip "0") = some (.fin 0 0) := by decide
  have h45 : pyFloatTok (pyStrip "123.45") = some (.fin 12345 (-2)) := by decide
  refine ⟨?_, ?_, ?_, ?_, ?_⟩
  · simp [amount_handler, udAwaitingAmount, pyFloat, hnan, pyFloatTokVal, pyFloatLe0]
  · simp [amount_handler, udAwaitingAmount, pyFloat, habc]
  · have hle : pyFloatLe0 (pyFloatTokVal (.fin (-5) 0)) = true := by
      simp [pyFloatTokVal, pyFloatLe0]
    simp [amount_handler, udAwaitingAmount, pyFloat, hm5, hle]
  · have hle : pyFloatLe0 (pyFloatTokVal (.fin 0 0)) = true := by
      simp [pyFloatTokVal, pyFloatLe0]
    simp [amount_handler, udAwaitingAmount, pyFloat, h0, hle]
  · have hval : pyFloatTokVal (.fin 12345 (-2)) = .fin ((12345 : ℚ) / 100) := by
      simp [pyFloatTokVal]
      norm_num
    have hle : pyFloatLe0 (.fin ((12345 : ℚ) / 100)) = false := by
      simp [pyFloatLe0]
    simp [amount_handler, udAwaitingAmount, pyFloat, h45, hval, hle]

/-- C4: a commit — whether reached by submitting a comment in the
waiting-comment state or by declining the comment option — attempts the
append exactly once and then destroys both the PendingTransaction and the
state tag, for every append outcome; no retry happens. -/
theorem commit_destroys_pending (ud : UserData) (tx : PendingTransaction)
    (text today nowTs username : String) (append : AppendResult) (authOk : Bool)
    (hpt : ud.pending_transaction = some tx)
    (hty : tx.expense_type = "gasto" ∨ tx.expense_type = "ingreso") :
    (ud.state = some .waiting_comment →
      (comment_handler ud text nowTs username append).ud = ⟨none, none⟩ ∧
      ((comment_handler ud text nowTs username append).append).isSome = true) ∧
    ((handle_callback authOk ud ["comment", "no"] today nowTs username append).ud
        = ⟨none, none⟩ ∧
     ((handle_callback authOk ud ["comment", "no"] today nowTs username
        append).append).isSome = true) := by
  have hreg : ∀ comment : String,
      (register_transaction username nowTs append tx.expense_type tx.amount
        tx.category tx.subcategory tx.date comment).1.isSome = true := by
    intro comment
    rcases hty with h | h <;> rw [register_transaction] <;> simp [h]
  obtain ⟨p, st⟩ := ud
  simp only at hpt
  subst hpt
  constructor
  · intro hst
    simp only at hst
    subst hst
    exact ⟨rfl, hreg _⟩
  · exact ⟨rfl, hreg ""⟩

/-- Witness for commit destruction: a concrete expense transaction with a
failing append still loses its PendingTransaction and state on both
commit paths, with exactly one append attempted. -/
theorem commit_destroys_pending_witness :
    ((comment_handler ⟨some ⟨"gasto", "HOGAR", "Luz", "2026-10-12", some (.fin 5), ""⟩,
        some .waiting_comment⟩ "nota" "ts" "usr" .apiError).ud = ⟨none, none⟩ ∧
     ((comment_handler ⟨some ⟨"gasto", "HOGAR", "Luz", "2026-10-12", some (.fin 5), ""⟩,
        some .waiting_comment⟩ "nota" "ts" "usr" .apiError).append).isSome = true) ∧
    ((handle_callback true ⟨some ⟨"gasto", "HOGAR", "Luz", "2026-10-12", some (.fin 5), ""⟩,
        some .confirm_comment⟩ ["comment", "no"] "2026-10-12" "ts" "usr"
        .apiError).ud = ⟨none, none⟩ ∧
     ((handle_callback true ⟨some ⟨"gasto", "HOGAR", "Luz", "2026-10-12", some (.fin 5), ""⟩,
        some .confirm_comment⟩ ["comment", "no"] "2026-10-12" "ts" "usr"
        .apiError).append).isSome = true) := by
  have h1 := commit_destroys_pending
    ⟨some ⟨"gasto", "HOGAR", "Luz", "2026-10-12", some (.fin 5), ""⟩, some .waiting_comment⟩
    ⟨"gasto", "HOGAR", "Luz", "2026-10-12", some (.fin 5), ""⟩
    "nota" "2026-10-12" "ts" "usr" .apiError true rfl (Or.inl rfl)
  have h2 := commit_destroys_pending
    ⟨some ⟨"gasto", "HOGAR", "Luz", "2026-10-12", some (.fin 5), ""⟩, some .confirm_comment⟩
    ⟨"gasto", "HOGAR", "Luz", "2026-10-12", some (.fin 5), ""⟩
    "nota" "2026-10-12" "ts" "usr" .apiError true rfl (Or.inl rfl)
  exact ⟨h1.1 rfl, h2.2⟩

/-! ### Active-sheet invariant -/

theorem countP_map_eq_countP {α : Type} (f : α → α) (p q : α → Bool)
    (hpq : ∀ a, p (f a) = q a) (l : List α) :
    (l.map f).countP p = l.countP q := by
  induction l with
  | nil => rfl
  | cons a l ih => simp [List.countP_cons, hpq, ih]

theorem activeCount_deactivate_self (t : SheetTable) (uid : String) :
    activeCount (deactivate_user_sheets t uid) uid = 0 := by
  unfold activeCount deactivate_user_sheets
  rw [countP_map_eq_countP _ _ (fun _ => false)
    (by intro r; cases hA : (r.user_id == uid) <;> cases hB : r.is_active <;>
        simp [hA, hB])]
  simp

theorem activeCount_deactivate_ne (t : SheetTable) (uid u : String) (h : u ≠ uid) :
    activeCount (deactivate_user_sheets t uid) u = activeCount t u := by
  unfold activeCount deactivate_user_sheets
  rw [countP_map_eq_countP _ _ (fun r => r.user_id == u && r.is_active) ?hp]
  case hp =>
    intro r
    by_cases hcond : (r.user_id == uid && r.is_active) = true
    · have hru : r.user_id = uid := eq_of_beq ((Bool.and_eq_true _ _).mp hcond).1
      have hu2 : (r.user_id == u) = false := by
        rw [hru]
        exact beq_eq_false_iff_ne.mpr (Ne.symm h)
      simp [hcond, hu2]
    · simp [hcond]

theorem activeCount_append (t : SheetTable) (row : SheetRow) (u : String) :
    activeCount (t ++ [row]) u
      = activeCount t u + (if (row.user_id == u && row.is_active) = true then 1 else 0) := by
  simp [activeCount, List.countP_append, List.countP_cons]

theorem activeCount_updateFirst_le (t : SheetTable) (pr : SheetRow → Bool)
    (title : Option String) (u : String) :
    activeCount (updateFirst pr
      (fun r => { r with is_active := true, spreadsheet_title := title }) t) u
      ≤ activeCount t u + 1 := by
  induction t with
  | nil => simp [updateFirst, activeCount]
  | cons r rs ih =>
    unfold updateFirst
    by_cases hp : pr r = true
    · rw [if_pos hp]
      simp only [activeCount, List.countP_cons]
      split_ifs <;> omega
    · rw [if_neg hp]
      simp only [activeCount, List.countP_cons] at ih ⊢
      split_ifs <;> omega

theorem activeCount_updateFirst_ne (t : SheetTable) (uid sid : String)
    (title : Option String) (u : String) (h : u ≠ uid) :
    activeCount (updateFirst (fun r => r.user_id == uid && r.spreadsheet_id == sid)
      (fun r => { r with is_active := true, spreadsheet_title := title }) t) u
      = activeCount t u := by
  induction t with
  | nil => rfl
  | cons r rs ih =>
    unfold updateFirst
    by_cases hp : (r.user_id == uid && r.spreadsheet_id == sid) = true
    · rw [if_pos hp]
      have hru : r.user_id = uid := eq_of_beq ((Bool.and_eq_true _ _).mp hp).1
      have hu2 : (r.user_id == u) = false := by
        rw [hru]
        exact beq_eq_false_iff_ne.mpr (Ne.symm h)
      simp [activeCount, List.countP_cons, hu2]
    · rw [if_neg hp]
      simp only [activeCount, List.countP_cons] at ih ⊢
      omega

theorem set_active_sheet_preserves_invariant (t : SheetTable) (uid sid : String)
    (title : Option String) (hInv : ∀ v, activeCount t v ≤ 1) :
    ∀ u, activeCount (set_active_sheet t uid sid title).2 u ≤ 1 := by
  intro u
  unfold set_active_sheet
  cases hf : (deactivate_user_sheets t uid).find?
      (fun r => r.user_id == uid && r.spreadsheet_id == sid) with
  | some r =>
    simp only [hf]
    by_cases hu : u = uid
    · subst hu
      have h1 := activeCount_updateFirst_le (deactivate_user_sheets t u)
        (fun r => r.user_id == u && r.spreadsheet_id == sid) title u
      rw [activeCount_deactivate_self] at h1
      exact h1
    · rw [activeCount_updateFirst_ne _ _ _ _ _ hu,
        activeCount_deactivate_ne _ _ _ hu]
      exact hInv u
  | none =>
    simp only [hf]
    by_cases ha : (deactivate_user_sheets t uid).any (fun r => r.user_id == uid) = true
    · rw [if_pos ha]
      exact hInv u
    · rw [if_neg ha]
      by_cases hu : u = uid
      · subst hu
        rw [activeCount_append, activeCount_deactivate_self]
        simp
      · rw [activeCount_append, activeCount_deactivate_ne _ _ _ hu]
        have hrow : ((SheetRow.mk uid sid title true).user_id == u) = false :=
          beq_eq_false_iff_ne.mpr (Ne.symm hu)
        simp only [hrow, Bool.false_and, if_neg]
        simpa using hInv u

theorem logout_preserves_invariant (t : SheetTable) (uid : String)
    (hInv : ∀ v, activeCount t v ≤ 1) :
    ∀ u, activeCount (logout_deactivate t uid) u ≤ 1 := by
  intro u
  unfold logout_deactivate
  by_cases hu : u = uid
  · subst hu
    rw [activeCount_deactivate_self]
    omega
  · rw [activeCount_deactivate_ne _ _ _ hu]
    exact hInv u

theorem applySheetOps_preserves_invariant (ops : List SheetOp) :
    ∀ t : SheetTable, (∀ v, activeCount t v ≤ 1) →
      ∀ u, activeCount (applySheetOps t ops) u ≤ 1 := by
  induction ops with
  | nil => exact fun t h u => h u
  | cons op rest ih =>
    intro t h u
    have hstep : ∀ v, activeCount (applySheetOp t op) v ≤ 1 := by
      cases op with
      | setActive uid sid title =>
        exact set_active_sheet_preserves_invariant t uid sid title h
      | logout uid => exact logout_preserves_invariant t uid h
    exact ih (applySheetOp t op) hstep u

/-- C5: starting from an empty `user_sheets` table, any sequence of
set-active-sheet operations and logout deactivations leaves at most one
active row per user — selecting a sheet first deactivates the user's
active rows and then reactivates or inserts exactly one. -/
theorem at_most_one_active_sheet (ops : List SheetOp) (uid : String) :
    activeCount (applySheetOps [] ops) uid ≤ 1 :=
  applySheetOps_preserves_invariant ops [] (fun v => by simp [activeCount]) uid

end Midas
